import Mathlib

/-!
Verification of the safety-filtering and backend-dispatch pipeline of the
`inxt_website_adk_vercel` repository.

Shallow embedding of:
  * `src/lib/model-armor-client.ts` (ModelArmorClient: parseResponse,
    parseDetails, getMatchStateMessage, sanitizePrompt, sanitizeResponse),
  * `src/lib/auth.ts` (AuthManager.getAccessToken),
  * `src/app/api/model-armor/config.ts` (SAFETY_TEMPLATES, getTemplates),
  * `src/app/api/chat/route.ts` (POST handler, collectStreamingResponse),
  * `src/app/api/model-armor/sanitize route` (POST handler).

Remote I/O (fetch to the classifier, the identity provider, the backends) is
modelled by explicit outcome parameters; JavaScript exceptions are modelled by
the outcome constructors that trigger the corresponding catch branches, and
JavaScript truthiness on strings (empty string is falsy) is modelled
explicitly wherever the source relies on it.
-/

/-- A nested result object carrying only a numeric `matchState` field
(the shape of `piAndJailbreakFilterResult`, `maliciousUriFilterResult`,
`inspectResult` and the four RAI sub-category results). -/
structure MatchStateResult where
  matchState : Nat
deriving DecidableEq, Repr

/-- `deidentifyResult`: a match state plus the optional rewritten text at
`deidentifyResult.data.text` (collapsed into one optional field; `none`
models an absent `data` or absent `text`). -/
structure DeidentifyResult where
  matchState : Nat
  dataText : Option String := none
deriving DecidableEq, Repr

/-- `sdpFilterResult`: optional `inspectResult`, optional `deidentifyResult`. -/
structure SdpFilterResult where
  inspectResult : Option MatchStateResult := none
  deidentifyResult : Option DeidentifyResult := none
deriving DecidableEq, Repr

/-- The `filterResults.sdp` entry. -/
structure SdpEntry where
  sdpFilterResult : SdpFilterResult
deriving DecidableEq, Repr

/-- The `filterResults.piAndJailbreak` entry. -/
structure PiAndJailbreakEntry where
  piAndJailbreakFilterResult : MatchStateResult
deriving DecidableEq, Repr

/-- The `filterResults.maliciousUris` entry. -/
structure MaliciousUrisEntry where
  maliciousUriFilterResult : MatchStateResult
deriving DecidableEq, Repr

/-- `raiFilterTypeResults`: the four optional RAI sub-category results
(the source reads each via `?.matchState || 0`). -/
structure RaiFilterTypeResults where
  sexuallyExplicit : Option MatchStateResult := none
  hateSpeech : Option MatchStateResult := none
  harassment : Option MatchStateResult := none
  dangerous : Option MatchStateResult := none
deriving DecidableEq, Repr

/-- `raiFilterResult`: an overall match state plus the per-type results
(the source defaults an absent `raiFilterTypeResults` to `{}`, modelled by
the all-`none` default value). -/
structure RaiFilterResult where
  matchState : Nat
  raiFilterTypeResults : RaiFilterTypeResults := {}
deriving DecidableEq, Repr

/-- The `filterResults.rai` entry. -/
structure RaiEntry where
  raiFilterResult : RaiFilterResult
deriving DecidableEq, Repr

/-- `sanitizationResult.filterResults`: each category is optional; an absent
category is `none`. -/
structure FilterResults where
  sdp : Option SdpEntry := none
  piAndJailbreak : Option PiAndJailbreakEntry := none
  maliciousUris : Option MaliciousUrisEntry := none
  rai : Option RaiEntry := none
deriving DecidableEq, Repr

/-- `sanitizationResult`: the overall `filterMatchState` plus the per-filter
results (the source defaults an absent `filterResults` to `{}`). -/
structure SanitizationResult where
  filterMatchState : Nat
  filterResults : FilterResults := {}
deriving DecidableEq, Repr

/-- A well-formed Model Armor success response body. A body from which
`parseResponse` would throw (e.g. missing `sanitizationResult`) is modelled
as a malformed-body fetch outcome instead, since the throw is caught by the
fail-open handler. -/
structure ApiResponse where
  sanitizationResult : SanitizationResult
deriving DecidableEq, Repr

/-- The `responsibleAI` block of `SafetyDetails`. -/
structure ResponsibleAIDetails where
  overall : String
  sexuallyExplicit : String
  hateSpeech : String
  harassment : String
  dangerous : String
deriving DecidableEq, Repr

/-- `SafetyDetails` from `model-armor-client.ts`: every field optional; an
absent field models a TypeScript field left `undefined`. -/
structure SafetyDetails where
  sensitiveData : Option String := none
  promptInjection : Option String := none
  maliciousUrls : Option String := none
  responsibleAI : Option ResponsibleAIDetails := none
deriving DecidableEq, Repr

/-- The `rawResponse` field of a `SafetyResult`: either the raw success
body, or the error object `{ error: message }` built on the fail-open path. -/
inductive RawResponse
  | fromApi (resp : ApiResponse)
  | fromError (msg : String)
deriving DecidableEq, Repr

/-- `SafetyResult` from `model-armor-client.ts`. `sanitizedText` is optional
in the TypeScript interface but assigned on every code path, so it is a plain
`String` here. -/
structure SafetyResult where
  isSafe : Bool
  blocked : Bool
  matchState : Nat
  sanitizedText : String
  details : SafetyDetails
  rawResponse : RawResponse
deriving DecidableEq, Repr

/-- `ModelArmorClient.getMatchStateMessage`: 1 ↦ safe, 2 ↦ blocked,
anything else ↦ not_assessed. -/
def getMatchStateMessage (matchState : Nat) : String :=
  if matchState = 1 then "safe"
  else if matchState = 2 then "blocked"
  else "not_assessed"

/-- The `raiTypes.<category>?.matchState || 0` read: an absent sub-category
result yields match state 0. -/
def matchStateOrZero (r : Option MatchStateResult) : Nat :=
  match r with
  | some m => m.matchState
  | none => 0

/-- `ModelArmorClient.parseDetails`, field by field from the source:
`sdp` prefers `inspectResult` over `deidentifyResult`; `piAndJailbreak`,
`maliciousUris` and `rai` are read when present; absent categories leave the
corresponding detail field unset. -/
def parseDetails (filterResults : FilterResults) : SafetyDetails :=
  let sensitiveData : Option String :=
    match filterResults.sdp with
    | none => none
    | some sdp =>
      match sdp.sdpFilterResult.inspectResult with
      | some ir => some (getMatchStateMessage ir.matchState)
      | none =>
        match sdp.sdpFilterResult.deidentifyResult with
        | some dr => some (getMatchStateMessage dr.matchState)
        | none => none
  let promptInjection : Option String :=
    (filterResults.piAndJailbreak).map
      (fun p => getMatchStateMessage p.piAndJailbreakFilterResult.matchState)
  let maliciousUrls : Option String :=
    (filterResults.maliciousUris).map
      (fun m => getMatchStateMessage m.maliciousUriFilterResult.matchState)
  let responsibleAI : Option ResponsibleAIDetails :=
    (filterResults.rai).map (fun r =>
      let raiTypes := r.raiFilterResult.raiFilterTypeResults
      { overall := getMatchStateMessage r.raiFilterResult.matchState
        sexuallyExplicit := getMatchStateMessage (matchStateOrZero raiTypes.sexuallyExplicit)
        hateSpeech := getMatchStateMessage (matchStateOrZero raiTypes.hateSpeech)
        harassment := getMatchStateMessage (matchStateOrZero raiTypes.harassment)
        dangerous := getMatchStateMessage (matchStateOrZero raiTypes.dangerous) })
  { sensitiveData := sensitiveData
    promptInjection := promptInjection
    maliciousUrls := maliciousUrls
    responsibleAI := responsibleAI }

/-- `ModelArmorClient.parseResponse`. The de-identified rewrite is read from
`filterResults.sdp?.sdpFilterResult?.deidentifyResult?.data?.text`; the
JavaScript `if (...)` on that chain treats an empty rewrite string as falsy,
so an empty rewrite leaves the original text in place. A blocked verdict
always reports the original text. -/
def parseResponse (apiResponse : ApiResponse) (originalText : String) : SafetyResult :=
  let sanitizationResult := apiResponse.sanitizationResult
  let filterMatchState := sanitizationResult.filterMatchState
  let isBlocked : Bool := filterMatchState == 2
  let filterResults := sanitizationResult.filterResults
  let sanitizedText : String :=
    match filterResults.sdp with
    | some sdp =>
      match sdp.sdpFilterResult.deidentifyResult with
      | some dr =>
        match dr.dataText with
        | some t => if t = "" then originalText else t
        | none => originalText
      | none => originalText
    | none => originalText
  { isSafe := !isBlocked
    blocked := isBlocked
    matchState := filterMatchState
    sanitizedText := if isBlocked then originalText else sanitizedText
    details := parseDetails filterResults
    rawResponse := RawResponse.fromApi apiResponse }

/-- Outcome of one classification fetch, as observed by the try/catch of the client: a success body, or one of the failure modes (network error,
non-2xx status, a body on which `parseResponse` throws). -/
inductive FetchOutcome
  | networkError (msg : String)
  | httpError (status : Nat) (body : String)
  | malformedBody (msg : String)
  | success (resp : ApiResponse)
deriving DecidableEq, Repr

/-- The fail-open result built in both catch handlers of
`sanitizePrompt` / `sanitizeResponse`. -/
def failOpenResult (text : String) (errMsg : String) : SafetyResult :=
  { isSafe := true
    blocked := false
    matchState := 0
    sanitizedText := text
    details := {}
    rawResponse := RawResponse.fromError errMsg }

/-- `ModelArmorClient.sanitizePrompt`: on a success body, `parseResponse`;
on any caught failure, the fail-open result. Never raises to the caller
(modelled by totality). `templateId` selects the remote template and does
not affect verdict construction. -/
def sanitizePrompt (text : String) (templateId : Option String)
    (outcome : FetchOutcome) : SafetyResult :=
  match outcome with
  | FetchOutcome.success resp => parseResponse resp text
  | FetchOutcome.networkError m => failOpenResult text m
  | FetchOutcome.httpError status body =>
      failOpenResult text ("Model Armor API failed: " ++ toString status ++ " " ++ body)
  | FetchOutcome.malformedBody m => failOpenResult text m

/-- `ModelArmorClient.sanitizeResponse`: identical control flow to
`sanitizePrompt` (only the remote operation and default template differ). -/
def sanitizeResponse (text : String) (templateId : Option String)
    (outcome : FetchOutcome) : SafetyResult :=
  match outcome with
  | FetchOutcome.success resp => parseResponse resp text
  | FetchOutcome.networkError m => failOpenResult text m
  | FetchOutcome.httpError status body =>
      failOpenResult text ("Model Armor API failed: " ++ toString status ++ " " ++ body)
  | FetchOutcome.malformedBody m => failOpenResult text m

/-- The safety profile names of `SAFETY_TEMPLATES` in
`src/app/api/model-armor/config.ts`. -/
inductive SafetyProfile
  | conservative
  | balanced
  | permissive
  | pii_focused
  | content_moderation
deriving DecidableEq, Repr

/-- A pair of template identifiers (prompt-side, response-side). -/
structure TemplatePair where
  prompt : String
  response : String
deriving DecidableEq, Repr

/-- `getTemplates` over the fixed `SAFETY_TEMPLATES` registry. -/
def getTemplates (profile : SafetyProfile) : TemplatePair :=
  match profile with
  | SafetyProfile.conservative => { prompt := "ma-all-high", response := "ma-rai-high" }
  | SafetyProfile.balanced => { prompt := "ma-all-med", response := "ma-all-low" }
  | SafetyProfile.permissive => { prompt := "ma-pijb-med", response := "ma-rai-low" }
  | SafetyProfile.pii_focused => { prompt := "ma-sdp-inspect", response := "ma-sdp-deid" }
  | SafetyProfile.content_moderation => { prompt := "ma-rai-high", response := "ma-rai-med" }

/-- `GoogleCloudAuth` from `auth.ts`: a bearer token and its expiry
timestamp (milliseconds). -/
structure GoogleCloudAuth where
  accessToken : String
  expiresAt : Int
deriving DecidableEq, Repr

/-- The mutable state of the process-wide `AuthManager` singleton. -/
structure AuthState where
  cachedAuth : Option GoogleCloudAuth := none
deriving DecidableEq, Repr

/-- Outcome of one identity-provider token exchange, as observed by the
try/catch in `getAccessToken`: a token, a response with no token
(`accessTokenResponse.token` absent, which the source turns into a throw),
or a thrown provider error. -/
inductive TokenFetchOutcome
  | ok (token : String)
  | noToken
  | fetchError (msg : String)
deriving DecidableEq, Repr

/-- Result of one `getAccessToken` call: either a token or the
authentication error thrown by the catch handler. -/
inductive TokenResult
  | ok (token : String)
  | authError (msg : String)
deriving DecidableEq, Repr

/-- The message of the error thrown by the catch handler of
`getAccessToken`. -/
def authFailureMessage : String := "Failed to authenticate with Google Cloud"

/-- One observed `getAccessToken` call: its result, the auth state after the
call, and whether an identity-provider exchange was attempted. -/
structure AuthCallResult where
  result : TokenResult
  state : AuthState
  fetched : Bool
deriving DecidableEq, Repr

/-- The refresh path of `AuthManager.getAccessToken` (reached when no valid
cached token exists): attempt one exchange; on a token, cache
`{ accessToken, expiresAt := now + 3600000 }` and return it; on `noToken`
or a provider error, throw the authentication error, leaving the cache
unchanged. -/
def getAccessTokenFresh (st : AuthState) (now : Int)
    (fetch : TokenFetchOutcome) : AuthCallResult :=
  match fetch with
  | TokenFetchOutcome.ok token =>
      { result := TokenResult.ok token
        state := { cachedAuth := some { accessToken := token, expiresAt := now + 3600000 } }
        fetched := true }
  | TokenFetchOutcome.noToken =>
      { result := TokenResult.authError authFailureMessage, state := st, fetched := true }
  | TokenFetchOutcome.fetchError _ =>
      { result := TokenResult.authError authFailureMessage, state := st, fetched := true }

/-- `AuthManager.getAccessToken`: return the cached token when
`now < expiresAt - 300000` (5-minute buffer); otherwise refresh. `now` is
the `Date.now()` reading of the call, `fetch` the behaviour of the provider on
this call. -/
def getAccessToken (st : AuthState) (now : Int)
    (fetch : TokenFetchOutcome) : AuthCallResult :=
  match st.cachedAuth with
  | some cached =>
      if now < cached.expiresAt - 300000 then
        { result := TokenResult.ok cached.accessToken, state := st, fetched := false }
      else getAccessTokenFresh st now fetch
  | none => getAccessTokenFresh st now fetch

/-- One parsed SSE `data:` line of the local-backend stream, as consumed by
`collectStreamingResponse`: whether the event is incremental, and
`content.parts[0].text` when `content.parts[0]` is present (`none` models a
parsed JSON event without that path). -/
structure SSEFragment where
  incremental : Bool
  content : Option String := none
deriving DecidableEq, Repr

/-- The per-fragment accumulator update of `collectStreamingResponse`:
append on an incremental fragment, replace wholesale on a final one, leave
unchanged on an event without content. -/
def stepAccum (acc : String) (f : SSEFragment) : String :=
  match f.content with
  | none => acc
  | some t => if f.incremental then acc ++ t else t

/-- The value of `fullText` after the whole fragment sequence. -/
def fullTextOf (frags : List SSEFragment) : String :=
  frags.foldl stepAccum ""

/-- `collectStreamingResponse` over the sequence of successfully parsed
fragments: `fullText || lastValidJson?.content?.parts?.[0]?.text ||
No response generated` — both fallbacks fire on JavaScript-falsy (empty
or absent) values. -/
def collectStreamingResponse (frags : List SSEFragment) : String :=
  let fullText := fullTextOf frags
  if fullText = "" then
    match frags.getLast? with
    | some lastFrag =>
        match lastFrag.content with
        | some t => if t = "" then "No response generated" else t
        | none => "No response generated"
    | none => "No response generated"
  else fullText

/-- Outcome of `generateAIResponse` (either backend strategy): the answer
text, or a thrown error with its message. -/
inductive GenOutcome
  | ok (text : String)
  | err (msg : String)
deriving DecidableEq, Repr

/-- Observable network side effects of one chat request. -/
inductive Effect
  | credentialFetch
  | classifierPromptCall
  | classifierResponseCall
  | backendCall
deriving DecidableEq, Repr

/-- The parsed body of a chat request (fields irrelevant to the pipeline
omitted). `message = none` models an absent field; the route also rejects a
present-but-empty message, since `!message` is true on `""`. -/
structure ChatBody where
  message : Option String := none
  safetyProfile : SafetyProfile := SafetyProfile.balanced
deriving DecidableEq, Repr

/-- The environment of one chat request: the Model Armor enable flag, the
two classifier outcomes, the backend outcome, and `NODE_ENV` equal to `development`
(which the chat route never consults). -/
structure ChatEnv where
  modelArmorEnabled : Bool
  promptOutcome : FetchOutcome
  genOutcome : GenOutcome
  responseOutcome : FetchOutcome
  devMode : Bool := false
deriving DecidableEq, Repr

/-- The JSON body (plus HTTP status) produced by the chat route. Fields
absent from a given branch are `none`; `hasSafetyDetails` records whether
the branch emits a `safetyDetails` object at all. -/
structure ChatJson where
  status : Nat := 200
  error : Option String := none
  response : Option String := none
  blocked : Option Bool := none
  reason : Option String := none
  hasSafetyDetails : Bool := false
  promptDetails : Option SafetyDetails := none
  responseDetails : Option SafetyDetails := none
  metaSanitizedInput : Option Bool := none
  metaModelArmorEnabled : Option Bool := none
deriving DecidableEq, Repr

/-- The 400 validation response of the chat route. -/
def validationErrorJson : ChatJson :=
  { status := 400, error := some "Message is required" }

/-- The fixed prompt-side safety-block message. -/
def promptBlockMessage : String :=
  "I cannot process that request due to safety concerns. Please rephrase your question."

/-- The fixed generation-failure apology message. -/
def genErrorMessage : String :=
  "I'm experiencing technical difficulties. Please try again later."

/-- The fixed response-side safety-block message. -/
def responseBlockMessage : String :=
  "I apologize, but I cannot provide that response due to safety policies."

/-- Steps 2–4 of the chat route (generation, response-side classification,
final response), shared by the enabled and disabled prompt-side branches.
`promptSafety` is `none` when Model Armor is disabled. -/
def chatStep2Onward (body : ChatBody) (env : ChatEnv)
    (promptSafety : Option SafetyResult) (sanitizedInput message : String)
    (eff : List Effect) : ChatJson × List Effect :=
  match env.genOutcome with
  | GenOutcome.err m =>
      ({ status := 500
         response := some genErrorMessage
         blocked := some true
         reason := some "generation_error"
         error := some m },
       eff ++ [Effect.backendCall])
  | GenOutcome.ok aiResponse =>
      let effGen := eff ++ [Effect.backendCall]
      if env.modelArmorEnabled then
        let templates := getTemplates body.safetyProfile
        let responseSafety :=
          sanitizeResponse aiResponse (some templates.response) env.responseOutcome
        let effResp := effGen ++ [Effect.credentialFetch, Effect.classifierResponseCall]
        if responseSafety.blocked then
          ({ status := 200
             response := some responseBlockMessage
             blocked := some true
             reason := some "unsafe_response"
             hasSafetyDetails := true
             promptDetails := promptSafety.map SafetyResult.details
             responseDetails := some responseSafety.details },
           effResp)
        else
          ({ status := 200
             response := some aiResponse
             blocked := some false
             hasSafetyDetails := true
             promptDetails := promptSafety.map SafetyResult.details
             responseDetails := some responseSafety.details
             metaSanitizedInput := some (sanitizedInput != message)
             metaModelArmorEnabled := some env.modelArmorEnabled },
           effResp)
      else
        ({ status := 200
           response := some aiResponse
           blocked := some false
           hasSafetyDetails := true
           promptDetails := promptSafety.map SafetyResult.details
           responseDetails := none
           metaSanitizedInput := some (sanitizedInput != message)
           metaModelArmorEnabled := some env.modelArmorEnabled },
         effGen)

/-- The `POST` handler of `src/app/api/chat/route.ts`, returning the JSON
response together with the trace of network effects it causes. Validation:
`if (!message)` rejects an absent or empty message with 400 before any
effect. Step 1 (when enabled): classify the prompt (one credential fetch
plus one classifier call); on a blocked verdict return the fixed block
message and stop. `sanitizedInput` is `promptSafety.sanitizedText || message`
(empty string is falsy). -/
def chatPOST (body : ChatBody) (env : ChatEnv) : ChatJson × List Effect :=
  match body.message with
  | none => (validationErrorJson, [])
  | some message =>
    if message = "" then (validationErrorJson, [])
    else if env.modelArmorEnabled then
      let templates := getTemplates body.safetyProfile
      let promptSafety := sanitizePrompt message (some templates.prompt) env.promptOutcome
      let eff : List Effect := [Effect.credentialFetch, Effect.classifierPromptCall]
      if promptSafety.blocked then
        ({ status := 200
           response := some promptBlockMessage
           blocked := some true
           reason := some "unsafe_prompt"
           hasSafetyDetails := true
           promptDetails := some promptSafety.details
           responseDetails := none },
         eff)
      else
        let sanitizedInput :=
          if promptSafety.sanitizedText = "" then message else promptSafety.sanitizedText
        chatStep2Onward body env (some promptSafety) sanitizedInput message eff
    else
      chatStep2Onward body env none message message []

/-- The parsed body of a classifier-test request
(`src/app/api/model-armor/.../route.ts`, the `POST` of the sanitize
endpoint): `type` defaults to `prompt`. -/
structure ArmorBody where
  text : Option String := none
  type : String := "prompt"
  templateId : Option String := none
deriving DecidableEq, Repr

/-- Environment of one classifier-test request. -/
structure ArmorEnv where
  enabled : Bool
  devMode : Bool
  outcome : FetchOutcome
deriving DecidableEq, Repr

/-- The JSON body (plus HTTP status) produced by the classifier-test route.
`detailsDisabled` records the `{ disabled: true }` details object of the
disabled branch. -/
structure ArmorJson where
  status : Nat := 200
  error : Option String := none
  isSafe : Option Bool := none
  blocked : Option Bool := none
  text : Option String := none
  matchState : Option Nat := none
  details : Option SafetyDetails := none
  detailsDisabled : Bool := false
  debug : Option RawResponse := none
deriving DecidableEq, Repr

/-- The `POST` handler of the classifier-test route: when disabled, echo the
text as trivially safe; reject an absent or empty text with 400; otherwise
classify in the requested direction and return the verdict, attaching the
raw classifier response as `debug` only when `NODE_ENV` equal to `development`. -/
def armorPOST (body : ArmorBody) (env : ArmorEnv) : ArmorJson :=
  if !env.enabled then
    { isSafe := some true
      blocked := some false
      text := body.text
      detailsDisabled := true }
  else
    match body.text with
    | none => { status := 400, error := some "Text is required" }
    | some text =>
      if text = "" then { status := 400, error := some "Text is required" }
      else
        let result :=
          if body.type = "response" then sanitizeResponse text body.templateId env.outcome
          else sanitizePrompt text body.templateId env.outcome
        { isSafe := some result.isSafe
          blocked := some result.blocked
          text := some result.sanitizedText
          matchState := some result.matchState
          details := some result.details
          debug := if env.devMode then some result.rawResponse else none }

/-- Helper: both sanitize operations satisfy
`blocked = (matchState == 2)` on every outcome. -/
theorem sanitizePrompt_blocked_eq (text : String) (tid : Option String)
    (outcome : FetchOutcome) :
    (sanitizePrompt text tid outcome).blocked =
      ((sanitizePrompt text tid outcome).matchState == 2) := by
  cases outcome <;> simp [sanitizePrompt, failOpenResult, parseResponse]

/-- Helper: `sanitizeResponse` and `sanitizePrompt` are the same function of
the outcome. -/
theorem sanitizeResponse_eq_sanitizePrompt (text : String) (tid : Option String)
    (outcome : FetchOutcome) :
    sanitizeResponse text tid outcome = sanitizePrompt text tid outcome := by
  cases outcome <;> rfl

/-- C2: for every input text and every failure of the classification call
(network error, non-2xx status, malformed body), `sanitizePrompt` and
`sanitizeResponse` do not raise (they are total functions here) and return
the fail-open verdict: `isSafe = true`, `blocked = false`, `matchState = 0`,
`sanitizedText` equal to the original input, empty details. -/
theorem c2_sanitize_fails_open (text : String) (tid : Option String)
    (outcome : FetchOutcome)
    (h : ∀ resp, outcome ≠ FetchOutcome.success resp) :
    (sanitizePrompt text tid outcome).isSafe = true ∧
    (sanitizePrompt text tid outcome).blocked = false ∧
    (sanitizePrompt text tid outcome).matchState = 0 ∧
    (sanitizePrompt text tid outcome).sanitizedText = text ∧
    (sanitizePrompt text tid outcome).details = {} ∧
    (sanitizeResponse text tid outcome).isSafe = true ∧
    (sanitizeResponse text tid outcome).blocked = false ∧
    (sanitizeResponse text tid outcome).matchState = 0 ∧
    (sanitizeResponse text tid outcome).sanitizedText = text ∧
    (sanitizeResponse text tid outcome).details = {} := by
  cases outcome with
  | success resp => exact absurd rfl (h resp)
  | networkError m => simp [sanitizePrompt, sanitizeResponse, failOpenResult]
  | httpError s b => simp [sanitizePrompt, sanitizeResponse, failOpenResult]
  | malformedBody m => simp [sanitizePrompt, sanitizeResponse, failOpenResult]

/-- Witness for C2 at a concrete network failure. -/
theorem c2_sanitize_fails_open_witness :
    (sanitizePrompt "hello" none (FetchOutcome.networkError "ECONNREFUSED")).isSafe = true ∧
    (sanitizePrompt "hello" none (FetchOutcome.networkError "ECONNREFUSED")).blocked = false ∧
    (sanitizePrompt "hello" none (FetchOutcome.networkError "ECONNREFUSED")).matchState = 0 ∧
    (sanitizePrompt "hello" none (FetchOutcome.networkError "ECONNREFUSED")).sanitizedText = "hello" ∧
    (sanitizePrompt "hello" none (FetchOutcome.networkError "ECONNREFUSED")).details = {} ∧
    (sanitizeResponse "hello" none (FetchOutcome.networkError "ECONNREFUSED")).isSafe = true ∧
    (sanitizeResponse "hello" none (FetchOutcome.networkError "ECONNREFUSED")).blocked = false ∧
    (sanitizeResponse "hello" none (FetchOutcome.networkError "ECONNREFUSED")).matchState = 0 ∧
    (sanitizeResponse "hello" none (FetchOutcome.networkError "ECONNREFUSED")).sanitizedText = "hello" ∧
    (sanitizeResponse "hello" none (FetchOutcome.networkError "ECONNREFUSED")).details = {} :=
  c2_sanitize_fails_open "hello" none (FetchOutcome.networkError "ECONNREFUSED")
    (fun resp hc => FetchOutcome.noConfusion hc)

/-- C3: a parsed success verdict with `filterMatchState = 2` is blocked and
reports the original input text, even when a de-identification rewrite is
present; a rewritten text is returned only when the verdict is not
blocked. -/
theorem c3_blocked_reports_original_text :
    (∀ (resp : ApiResponse) (text : String),
       resp.sanitizationResult.filterMatchState = 2 →
       (parseResponse resp text).blocked = true ∧
       (parseResponse resp text).sanitizedText = text) ∧
    (∀ (resp : ApiResponse) (text : String),
       (parseResponse resp text).sanitizedText ≠ text →
       (parseResponse resp text).blocked = false) := by
  constructor
  · intro resp text h
    simp [parseResponse, h]
  · intro resp text h
    by_cases hb : resp.sanitizationResult.filterMatchState = 2
    · exact absurd (by simp [parseResponse, hb]) h
    · simp [parseResponse, hb]

/-- A concrete blocked success body that also carries a de-identification
rewrite (`[REDACTED]`). -/
def respBlockedWithRewrite : ApiResponse :=
  { sanitizationResult :=
    { filterMatchState := 2
      filterResults :=
      { sdp := some
          { sdpFilterResult :=
            { deidentifyResult := some { matchState := 2, dataText := some "[REDACTED]" } } } } } }

/-- Witness for C3: on the blocked body with a rewrite, the verdict is
blocked and reports the original text, not the rewrite. -/
theorem c3_blocked_reports_original_text_witness :
    (parseResponse respBlockedWithRewrite "my ssn is 123-45-6789").blocked = true ∧
    (parseResponse respBlockedWithRewrite "my ssn is 123-45-6789").sanitizedText =
      "my ssn is 123-45-6789" :=
  c3_blocked_reports_original_text.1 respBlockedWithRewrite "my ssn is 123-45-6789" rfl

/-- C4: every verdict the client produces — parsed from a success body or
built on the fail-open path — satisfies `blocked = (matchState == 2)` and
`isSafe = !blocked`. -/
theorem c4_verdict_invariant (text : String) (tid : Option String)
    (outcome : FetchOutcome) :
    ((sanitizePrompt text tid outcome).blocked =
       ((sanitizePrompt text tid outcome).matchState == 2) ∧
     (sanitizePrompt text tid outcome).isSafe =
       !(sanitizePrompt text tid outcome).blocked) ∧
    ((sanitizeResponse text tid outcome).blocked =
       ((sanitizeResponse text tid outcome).matchState == 2) ∧
     (sanitizeResponse text tid outcome).isSafe =
       !(sanitizeResponse text tid outcome).blocked) := by
  cases outcome <;>
    simp [sanitizePrompt, sanitizeResponse, failOpenResult, parseResponse]

/-- C8: `getMatchStateMessage` maps 1 to `safe`, 2 to `blocked`, every other
value (0 included) to `not_assessed`; a category absent from the remote
response yields no detail label (never an error — `parseDetails` is total),
and an absent RAI sub-category result is labelled `not_assessed`. -/
theorem c8_match_state_labels :
    (getMatchStateMessage 1 = "safe" ∧
     getMatchStateMessage 2 = "blocked" ∧
     (∀ n : Nat, n ≠ 1 → n ≠ 2 → getMatchStateMessage n = "not_assessed")) ∧
    (∀ fr : FilterResults, fr.sdp = none → (parseDetails fr).sensitiveData = none) ∧
    (∀ fr : FilterResults, fr.piAndJailbreak = none →
       (parseDetails fr).promptInjection = none) ∧
    (∀ fr : FilterResults, fr.maliciousUris = none →
       (parseDetails fr).maliciousUrls = none) ∧
    (∀ fr : FilterResults, fr.rai = none → (parseDetails fr).responsibleAI = none) ∧
    (∀ (fr : FilterResults) (entry : RaiEntry),
       fr.rai = some entry →
       entry.raiFilterResult.raiFilterTypeResults = {} →
       (parseDetails fr).responsibleAI = some
         { overall := getMatchStateMessage entry.raiFilterResult.matchState
           sexuallyExplicit := "not_assessed"
           hateSpeech := "not_assessed"
           harassment := "not_assessed"
           dangerous := "not_assessed" }) := by
  refine ⟨⟨rfl, rfl, ?_⟩, ?_, ?_, ?_, ?_, ?_⟩
  · intro n h1 h2
    simp [getMatchStateMessage, h1, h2]
  · intro fr h; simp [parseDetails, h]
  · intro fr h; simp [parseDetails, h]
  · intro fr h; simp [parseDetails, h]
  · intro fr h; simp [parseDetails, h]
  · intro fr entry h he
    simp [parseDetails, h, he, matchStateOrZero, getMatchStateMessage]

/-- Witness for C8: match state 0 and an entirely absent category on a
concrete empty filter-results object. -/
theorem c8_match_state_labels_witness :
    getMatchStateMessage 0 = "not_assessed" ∧
    (parseDetails {}).sensitiveData = none :=
  ⟨c8_match_state_labels.1.2.2 0 (by decide) (by decide),
   c8_match_state_labels.2.1 {} rfl⟩

/-- C6 counterexample: a single final fragment with empty text. A fragment
arrived and the accumulated value is the empty string, yet the aggregator
returns the guard string rather than the accumulated value, so the claim as
stated (the aggregator returns the last accumulated value whenever any
fragment arrived) is false. -/
theorem c6_counterexample_empty_final :
    fullTextOf [{ incremental := false, content := some "" }] = "" ∧
    collectStreamingResponse [{ incremental := false, content := some "" }] =
      "No response generated" ∧
    ("No response generated" : String) ≠ "" :=
  ⟨rfl, rfl, by decide⟩

/-- C6 (amended): the aggregator appends incremental fragments and replaces
the accumulator wholesale on final fragments; at stream close it returns the
accumulated value whenever that value is non-empty (on an empty accumulated
value it falls back to the text of the last parsed event and then to the
guard string, the guard in particular when no fragment ever arrived); the
three-fragment example aggregates to `Hello world`. -/
theorem c6_aggregation_amended :
    (∀ (frags : List SSEFragment) (t : String),
       fullTextOf (frags ++ [{ incremental := true, content := some t }]) =
         fullTextOf frags ++ t) ∧
    (∀ (frags : List SSEFragment) (t : String),
       fullTextOf (frags ++ [{ incremental := false, content := some t }]) = t) ∧
    (∀ frags : List SSEFragment,
       fullTextOf frags ≠ "" →
       collectStreamingResponse frags = fullTextOf frags) ∧
    collectStreamingResponse [] = "No response generated" ∧
    collectStreamingResponse
      [{ incremental := true, content := some "Hel" },
       { incremental := true, content := some "lo" },
       { incremental := false, content := some "Hello world" }] = "Hello world" := by
  refine ⟨?_, ?_, ?_, rfl, rfl⟩
  · intro frags t
    simp [fullTextOf, List.foldl_append, stepAccum]
  · intro frags t
    simp [fullTextOf, List.foldl_append, stepAccum]
  · intro frags h
    simp only [collectStreamingResponse]
    rw [if_neg h]

/-- Witness for C6 (amended), at the three-fragment example. -/
theorem c6_aggregation_amended_witness :
    collectStreamingResponse
      [{ incremental := true, content := some "Hel" },
       { incremental := true, content := some "lo" },
       { incremental := false, content := some "Hello world" }] =
    fullTextOf
      [{ incremental := true, content := some "Hel" },
       { incremental := true, content := some "lo" },
       { incremental := false, content := some "Hello world" }] :=
  c6_aggregation_amended.2.2.1
    [{ incremental := true, content := some "Hel" },
     { incremental := true, content := some "lo" },
     { incremental := false, content := some "Hello world" }] (by decide)

/-- C5: the credential cache. (i) A call while the cached token has more
than 5 minutes of remaining validity returns it with no provider call and
no state change. (ii) A call without such a cached token performs one
exchange and caches `expiresAt = now + 3600000`. (iii) A failed exchange
yields the authentication error and leaves the cache unchanged. (iv) A
returned token is either a freshly fetched one or a cached one still inside
its buffer window. (v) After a fetch at `t0`, a second call before
`t0 + 3300000` (55 minutes) reuses the cache with no exchange, and a second
call at or after that instant performs an exchange. -/
theorem c5_credential_cache :
    (∀ (st : AuthState) (now : Int) (fetch : TokenFetchOutcome) (c : GoogleCloudAuth),
       st.cachedAuth = some c → now < c.expiresAt - 300000 →
       getAccessToken st now fetch =
         { result := TokenResult.ok c.accessToken, state := st, fetched := false }) ∧
    (∀ (st : AuthState) (now : Int) (token : String),
       (∀ c, st.cachedAuth = some c → ¬ now < c.expiresAt - 300000) →
       getAccessToken st now (TokenFetchOutcome.ok token) =
         { result := TokenResult.ok token
           state := { cachedAuth := some { accessToken := token, expiresAt := now + 3600000 } }
           fetched := true }) ∧
    (∀ (st : AuthState) (now : Int) (fetch : TokenFetchOutcome),
       (∀ c, st.cachedAuth = some c → ¬ now < c.expiresAt - 300000) →
       (fetch = TokenFetchOutcome.noToken ∨ ∃ m, fetch = TokenFetchOutcome.fetchError m) →
       getAccessToken st now fetch =
         { result := TokenResult.authError authFailureMessage, state := st, fetched := true }) ∧
    (∀ (st : AuthState) (now : Int) (fetch : TokenFetchOutcome) (tok : String),
       (getAccessToken st now fetch).result = TokenResult.ok tok →
       (∃ c, st.cachedAuth = some c ∧ now < c.expiresAt - 300000 ∧ tok = c.accessToken) ∨
       fetch = TokenFetchOutcome.ok tok) ∧
    (∀ (t0 t1 : Int) (token : String) (fetch2 : TokenFetchOutcome),
       (t1 < t0 + 3300000 →
          getAccessToken
            (getAccessToken { cachedAuth := none } t0 (TokenFetchOutcome.ok token)).state
            t1 fetch2 =
          { result := TokenResult.ok token
            state := { cachedAuth := some { accessToken := token, expiresAt := t0 + 3600000 } }
            fetched := false }) ∧
       (t0 + 3300000 ≤ t1 →
          (getAccessToken
            (getAccessToken { cachedAuth := none } t0 (TokenFetchOutcome.ok token)).state
            t1 fetch2).fetched = true)) := by
  refine ⟨?_, ?_, ?_, ?_, ?_⟩
  · intro st now fetch c h1 h2
    simp [getAccessToken, h1, h2]
  · intro st now token h
    match hst : st.cachedAuth with
    | none => simp [getAccessToken, hst, getAccessTokenFresh]
    | some c =>
      have hc := h c hst
      simp [getAccessToken, hst, hc, getAccessTokenFresh]
  · intro st now fetch h hfail
    have hfresh : getAccessTokenFresh st now fetch =
        { result := TokenResult.authError authFailureMessage, state := st, fetched := true } := by
      rcases hfail with h1 | ⟨m, h2⟩
      · rw [h1]; rfl
      · rw [h2]; rfl
    match hst : st.cachedAuth with
    | none => rw [getAccessToken, hst] at *; exact hfresh
    | some c =>
      have hc := h c hst
      simp [getAccessToken, hst, hc, hfresh]
  · intro st now fetch tok h
    match hst : st.cachedAuth with
    | none =>
      right
      cases fetch with
      | ok t =>
        have ht : t = tok := by
          simpa [getAccessToken, hst, getAccessTokenFresh] using h
        rw [ht]
      | noToken => simp [getAccessToken, hst, getAccessTokenFresh] at h
      | fetchError m => simp [getAccessToken, hst, getAccessTokenFresh] at h
    | some c =>
      by_cases hlt : now < c.expiresAt - 300000
      · left
        refine ⟨c, rfl, hlt, ?_⟩
        have := h
        simp [getAccessToken, hst, hlt] at this
        exact this.symm
      · right
        cases fetch with
        | ok t =>
          have ht : t = tok := by
            simpa [getAccessToken, hst, hlt, getAccessTokenFresh] using h
          rw [ht]
        | noToken => simp [getAccessToken, hst, hlt, getAccessTokenFresh] at h
        | fetchError m => simp [getAccessToken, hst, hlt, getAccessTokenFresh] at h
  · intro t0 t1 token fetch2
    constructor
    · intro hlt
      have hc : t1 < (t0 + 3600000) - 300000 := by omega
      simp [getAccessToken, getAccessTokenFresh, hc]
    · intro hge
      have hc : ¬ t1 < (t0 + 3600000) - 300000 := by omega
      cases fetch2 <;> simp [getAccessToken, getAccessTokenFresh, hc]

/-- Witness for C5 at concrete instants: a hit inside the buffer window, a
refresh on an empty cache, a failed refresh, and the two-call reuse at
`t1 = 1000 < 3300000`. -/
theorem c5_credential_cache_witness :
    getAccessToken { cachedAuth := some { accessToken := "tok0", expiresAt := 3600000 } } 0
        TokenFetchOutcome.noToken =
      { result := TokenResult.ok "tok0"
        state := { cachedAuth := some { accessToken := "tok0", expiresAt := 3600000 } }
        fetched := false } ∧
    getAccessToken { cachedAuth := none } 0 (TokenFetchOutcome.ok "tok1") =
      { result := TokenResult.ok "tok1"
        state := { cachedAuth := some { accessToken := "tok1", expiresAt := 3600000 } }
        fetched := true } ∧
    getAccessToken { cachedAuth := none } 0 TokenFetchOutcome.noToken =
      { result := TokenResult.authError authFailureMessage
        state := { cachedAuth := none }
        fetched := true } ∧
    getAccessToken
        (getAccessToken { cachedAuth := none } 0 (TokenFetchOutcome.ok "tok2")).state
        1000 TokenFetchOutcome.noToken =
      { result := TokenResult.ok "tok2"
        state := { cachedAuth := some { accessToken := "tok2", expiresAt := 3600000 } }
        fetched := false } :=
  ⟨c5_credential_cache.1 _ 0 TokenFetchOutcome.noToken
      { accessToken := "tok0", expiresAt := 3600000 } rfl (by decide),
   by
     have h2 := c5_credential_cache.2.1 { cachedAuth := none } 0 "tok1"
       (fun c hc => Option.noConfusion hc)
     simpa using h2,
   by
     have h3 := c5_credential_cache.2.2.1 { cachedAuth := none } 0 TokenFetchOutcome.noToken
       (fun c hc => Option.noConfusion hc) (Or.inl rfl)
     simpa using h3,
   by
     have h5 := (c5_credential_cache.2.2.2.2 0 1000 "tok2" TokenFetchOutcome.noToken).1
       (by decide)
     simpa using h5⟩

/-- C1: with the classifier enabled, a prompt verdict with `matchState = 2`
makes the chat route return the fixed safety-block message with
`blocked = true` and the triggering category details, and the backend
generation call never happens on that request. -/
theorem c1_blocked_prompt_short_circuits
    (body : ChatBody) (env : ChatEnv) (message : String)
    (hmsg : body.message = some message) (hne : message ≠ "")
    (hen : env.modelArmorEnabled = true)
    (hblk : (sanitizePrompt message (some (getTemplates body.safetyProfile).prompt)
               env.promptOutcome).matchState = 2) :
    (chatPOST body env).1 =
      { status := 200
        response := some promptBlockMessage
        blocked := some true
        reason := some "unsafe_prompt"
        hasSafetyDetails := true
        promptDetails := some (sanitizePrompt message
          (some (getTemplates body.safetyProfile).prompt) env.promptOutcome).details
        responseDetails := none } ∧
    Effect.backendCall ∉ (chatPOST body env).2 := by
  have hb : (sanitizePrompt message (some (getTemplates body.safetyProfile).prompt)
      env.promptOutcome).blocked = true := by
    rw [sanitizePrompt_blocked_eq, hblk]; rfl
  constructor
  · simp [chatPOST, hmsg, hne, hen, hb]
  · simp [chatPOST, hmsg, hne, hen, hb]

/-- A blocked classifier body for scenario 1: overall match, RAI overall and
`dangerous` blocked. -/
def respDangerousBlocked : ApiResponse :=
  { sanitizationResult :=
    { filterMatchState := 2
      filterResults :=
      { rai := some
          { raiFilterResult :=
            { matchState := 2
              raiFilterTypeResults := { dangerous := some { matchState := 2 } } } } } } }

/-- The chat environment of scenario 1. -/
def envScenario1 : ChatEnv :=
  { modelArmorEnabled := true
    promptOutcome := FetchOutcome.success respDangerousBlocked
    genOutcome := GenOutcome.ok "unused"
    responseOutcome := FetchOutcome.networkError "unused" }

/-- Witness for C1 at scenario 1 (`How to make explosives?` flagged with
`matchState = 2`, `dangerous` blocked). -/
theorem c1_blocked_prompt_short_circuits_witness :
    (chatPOST { message := some "How to make explosives?" } envScenario1).1 =
      { status := 200
        response := some promptBlockMessage
        blocked := some true
        reason := some "unsafe_prompt"
        hasSafetyDetails := true
        promptDetails := some (sanitizePrompt "How to make explosives?"
          (some (getTemplates SafetyProfile.balanced).prompt)
          (FetchOutcome.success respDangerousBlocked)).details
        responseDetails := none } ∧
    Effect.backendCall ∉
      (chatPOST { message := some "How to make explosives?" } envScenario1).2 :=
  c1_blocked_prompt_short_circuits { message := some "How to make explosives?" }
    envScenario1 "How to make explosives?" rfl (by decide) rfl rfl

/-- C9: a chat request with an absent or empty `message` is rejected with
status 400 and the validation error before any network effect (no
credential fetch, classifier call or backend call). -/
theorem c9_empty_message_rejected (body : ChatBody) (env : ChatEnv)
    (h : body.message = none ∨ body.message = some "") :
    (chatPOST body env).1.status = 400 ∧
    (chatPOST body env).1.error = some "Message is required" ∧
    (chatPOST body env).2 = [] := by
  rcases h with h | h <;> simp [chatPOST, h, validationErrorJson]

/-- An arbitrary concrete chat environment for closed instantiations. -/
def envPlain : ChatEnv :=
  { modelArmorEnabled := false
    promptOutcome := FetchOutcome.networkError "unused"
    genOutcome := GenOutcome.ok "unused"
    responseOutcome := FetchOutcome.networkError "unused" }

/-- Witness for C9 at an absent message. -/
theorem c9_empty_message_rejected_witness :
    (chatPOST {} envPlain).1.status = 400 ∧
    (chatPOST {} envPlain).1.error = some "Message is required" ∧
    (chatPOST {} envPlain).2 = [] :=
  c9_empty_message_rejected {} envPlain (Or.inl rfl)

/-- C10: when the backend generation call throws (and the request reached
generation), the chat route returns status 500 with `blocked = true` and
reason `generation_error` although no safety block occurred — so a
`blocked = true` response does not imply a classifier block. -/
theorem c10_generation_error_sets_blocked
    (body : ChatBody) (env : ChatEnv) (message m : String)
    (hmsg : body.message = some message) (hne : message ≠ "")
    (hnb : env.modelArmorEnabled = true →
       (sanitizePrompt message (some (getTemplates body.safetyProfile).prompt)
          env.promptOutcome).blocked = false)
    (hgen : env.genOutcome = GenOutcome.err m) :
    (chatPOST body env).1.status = 500 ∧
    (chatPOST body env).1.blocked = some true ∧
    (chatPOST body env).1.reason = some "generation_error" := by
  by_cases hen : env.modelArmorEnabled = true
  · simp [chatPOST, hmsg, hne, hen, hnb hen, chatStep2Onward, hgen]
  · have hen' : env.modelArmorEnabled = false := by
      revert hen; cases env.modelArmorEnabled <;> simp
    simp [chatPOST, hmsg, hne, hen', chatStep2Onward, hgen]

/-- The chat environment of a failing backend with the classifier
disabled. -/
def envGenFailure : ChatEnv :=
  { modelArmorEnabled := false
    promptOutcome := FetchOutcome.networkError "unused"
    genOutcome := GenOutcome.err "Agent Engine API failed: 500 Internal Server Error - boom"
    responseOutcome := FetchOutcome.networkError "unused" }

/-- Witness for C10 at a concrete backend failure with the classifier
disabled (hence certainly no safety block). -/
theorem c10_generation_error_sets_blocked_witness :
    (chatPOST { message := some "Hi" } envGenFailure).1.status = 500 ∧
    (chatPOST { message := some "Hi" } envGenFailure).1.blocked = some true ∧
    (chatPOST { message := some "Hi" } envGenFailure).1.reason = some "generation_error" :=
  c10_generation_error_sets_blocked { message := some "Hi" } envGenFailure "Hi"
    "Agent Engine API failed: 500 Internal Server Error - boom"
    rfl (by decide) (fun hc => absurd hc (by decide)) rfl

/-- C7 counterexample: a production request (`devMode = false`) whose
backend call throws. The chat route response carries the raw underlying
error message in its `error` field even though no development-mode flag is
set, so the claim that raw error detail appears only under a
development-mode flag is false. -/
theorem c7_counterexample_raw_error_in_production :
    envGenFailure.devMode = false ∧
    (chatPOST { message := some "Hi" } envGenFailure).1.status = 500 ∧
    (chatPOST { message := some "Hi" } envGenFailure).1.error =
      some "Agent Engine API failed: 500 Internal Server Error - boom" :=
  ⟨rfl, rfl, rfl⟩

/-- C7 (amended): a backend generation failure is surfaced as a 5xx with
the generic apology message, but the chat route includes the raw underlying
error message in the response unconditionally, regardless of the
development-mode flag; only the classifier-test route gates its raw
classifier response (`debug`) behind the development-mode flag. -/
theorem c7_error_detail_amended :
    (∀ (body : ChatBody) (env : ChatEnv) (message m : String),
       body.message = some message → message ≠ "" →
       (env.modelArmorEnabled = true →
          (sanitizePrompt message (some (getTemplates body.safetyProfile).prompt)
             env.promptOutcome).blocked = false) →
       env.genOutcome = GenOutcome.err m →
       (chatPOST body env).1.status = 500 ∧
       (chatPOST body env).1.response = some genErrorMessage ∧
       (chatPOST body env).1.error = some m) ∧
    (∀ (abody : ArmorBody) (aenv : ArmorEnv) (t : String),
       aenv.enabled = true → abody.text = some t → t ≠ "" →
       (armorPOST abody aenv).debug =
         (if aenv.devMode then
            some (if abody.type = "response"
                  then (sanitizeResponse t abody.templateId aenv.outcome).rawResponse
                  else (sanitizePrompt t abody.templateId aenv.outcome).rawResponse)
          else none)) := by
  constructor
  · intro body env message m hmsg hne hnb hgen
    by_cases hen : env.modelArmorEnabled = true
    · simp [chatPOST, hmsg, hne, hen, hnb hen, chatStep2Onward, hgen]
    · have hen' : env.modelArmorEnabled = false := by
        revert hen; cases env.modelArmorEnabled <;> simp
      simp [chatPOST, hmsg, hne, hen', chatStep2Onward, hgen]
  · intro abody aenv t hen htext hne
    by_cases hty : abody.type = "response" <;>
      simp [armorPOST, hen, htext, hne, hty]

/-- Witness for C7 (amended): a concrete backend failure response carrying
the raw message, and a concrete production classifier-test response with no
debug field. -/
theorem c7_error_detail_amended_witness :
    ((chatPOST { message := some "Hi" } envGenFailure).1.status = 500 ∧
     (chatPOST { message := some "Hi" } envGenFailure).1.response = some genErrorMessage ∧
     (chatPOST { message := some "Hi" } envGenFailure).1.error =
       some "Agent Engine API failed: 500 Internal Server Error - boom") ∧
    (armorPOST { text := some "hello" }
       { enabled := true, devMode := false, outcome := FetchOutcome.networkError "down" }).debug =
      (if (false : Bool) then
         some (sanitizePrompt "hello" none (FetchOutcome.networkError "down")).rawResponse
       else none) :=
  ⟨c7_error_detail_amended.1 { message := some "Hi" } envGenFailure "Hi"
      "Agent Engine API failed: 500 Internal Server Error - boom"
      rfl (by decide) (fun hc => absurd hc (by decide)) rfl,
   by
     have h := c7_error_detail_amended.2 { text := some "hello" }
       { enabled := true, devMode := false, outcome := FetchOutcome.networkError "down" }
       "hello" rfl rfl (by decide)
     simpa using h⟩
